import Mathlib

/-
Shallow embedding of the audio-session subsystem of ClearComms
(src/src-tauri/src/audio_management/mod.rs).

The Windows Core Audio / Win32 API is modelled as explicit data that the
embedded functions consume:
  - a LiveWorld describes, for one call, what every COM call of the
    enumeration / fan-out loops would return (success flags and payloads);
  - a function from process ids to ProcQuery describes what OpenProcess and
    QueryFullProcessImageNameW would return for each pid.
Floating point volumes (f32 in the source) are modelled as rationals; the
clamp in the source is order based, which rationals reflect.  usize
arithmetic carries an explicit modulus 2 to the 64.  The Rust HashMap cache
is modelled as an association list whose iteration order is the insertion
order of the keys (overwrites keep the position of the key); the source
itself only relies on the unspecified iteration order of std HashMap.
Error values carry the constant part of the formatted message of the
source; the appended OS error detail is omitted where the source
interpolates one, and kept where it interpolates data of the program
(session id, process id).
-/

set_option maxHeartbeats 1000000
set_option maxRecDepth 8192

-- ─────────────────────────────────────────────────
-- Constants (lines 19-29 of the source)
-- ─────────────────────────────────────────────────

/-- Maximum number of cached audio sessions before pruning. -/
def MAX_SESSION_CACHE_SIZE : Nat := 1000

/-- Interval for logging enumerate calls. -/
def LOG_INTERVAL : Nat := 200

/-- Modulus of usize arithmetic (wrapping_add on a 64 bit machine). -/
def USIZE_MOD : Nat := 2 ^ 64

-- ─────────────────────────────────────────────────
-- Data model
-- ─────────────────────────────────────────────────

/-- Information about an audio session, as in the source struct. -/
structure AudioSession where
  session_id : String
  display_name : String
  process_id : Nat
  process_name : String
  volume : Rat
  is_muted : Bool
deriving DecidableEq

/-- The mutable state of the AudioManager singleton.  The session cache is
an association list standing for the HashMap, in key insertion order. -/
structure AudioManager where
  sessions : List (String × AudioSession)
  current_device_id : String
  enumerate_calls : Nat
  last_logged_counts : Option (Nat × Nat)
deriving DecidableEq

/-- What the OS would answer for one session slot of a device: success
flags of each COM call of the loops, and the payloads.  An Option models a
fallible call (none = the call fails); the nested Option of the two pwstr
fields models an Ok pwstr whose utf16 conversion fails (some none).
setOk tells whether a SetMasterVolume / SetMute call on this session would
succeed; the source discards that result. -/
structure LiveSession where
  getOk : Bool
  cast2Ok : Bool
  processIdRes : Option Nat
  sessionIdRes : Option (Option String)
  displayNameRes : Option (Option String)
  volCastOk : Bool
  volumeRes : Option Rat
  muteRes : Option Bool
  setOk : Bool
deriving DecidableEq

/-- What the OS would answer for one device of the collection. -/
structure LiveDevice where
  itemOk : Bool
  activateOk : Bool
  sessEnumOk : Bool
  countOk : Bool
  sessions : List LiveSession
deriving DecidableEq

/-- What the OS would answer for the whole pass: the three setup calls
(CoCreateInstance, EnumAudioEndpoints, GetCount of the device collection)
and the devices behind them. -/
structure LiveWorld where
  enumeratorOk : Bool
  endpointsOk : Bool
  devCountOk : Bool
  devices : List LiveDevice
deriving DecidableEq

/-- What the OS would answer when resolving the name of one process. -/
structure ProcQuery where
  openOk : Bool
  queryRes : Option String
deriving DecidableEq

deriving instance DecidableEq for Except

-- ─────────────────────────────────────────────────
-- Cache primitives (HashMap / HashSet operations used by the source)
-- ─────────────────────────────────────────────────

/-- HashMap insert: overwrite in place if the key is present, else append. -/
def insertC (c : List (String × AudioSession)) (k : String) (v : AudioSession) :
    List (String × AudioSession) :=
  if k ∈ c.map Prod.fst then
    c.map (fun p => if p.1 = k then (k, v) else p)
  else c ++ [(k, v)]

/-- HashSet insert. -/
def insertS (l : List String) (x : String) : List String :=
  if x ∈ l then l else l ++ [x]

/-- HashMap get: value of the first (unique) entry with the key. -/
def lookupC (c : List (String × AudioSession)) (k : String) : Option AudioSession :=
  (c.find? (fun p => p.1 == k)).map Prod.snd

/-- HashMap get_mut followed by a field update of the found entry. -/
def updateC (c : List (String × AudioSession)) (k : String)
    (f : AudioSession → AudioSession) : List (String × AudioSession) :=
  c.map (fun p => if p.1 == k then (p.1, f p.2) else p)

-- ─────────────────────────────────────────────────
-- Identity resolver: get_process_name (lines 81-117)
-- ─────────────────────────────────────────────────

/-- Splitting a character list on a separator character, with the
semantics of Rust str split: n separators give n+1 (possibly empty)
pieces. -/
def splitCharList (sep : Char) : List Char → List (List Char)
  | [] => [[]]
  | c :: cs =>
    if c = sep then [] :: splitCharList sep cs
    else
      match splitCharList sep cs with
      | [] => [c] :: []
      | t :: ts => (c :: t) :: ts

/-- Rust path.split(sep) as a list of strings. -/
def splitChar (sep : Char) (s : String) : List String :=
  (splitCharList sep s.data).map (fun l => String.mk l)

/-- get_process_name: executable name of a process id, never failing.
os models OpenProcess (openOk) and QueryFullProcessImageNameW (queryRes:
none = the call fails, some path = it succeeds and the decoded buffer
prefix is path; the size > 0 test of the source is path.length > 0). -/
def get_process_name (os : Nat → ProcQuery) (process_id : Nat) : String :=
  if process_id = 0 then "System"
  else
    let q := os process_id
    if q.openOk then
      match q.queryRes with
      | some path =>
        if 0 < path.length then
          match (splitChar '\\' path).getLast? with
          | some filename => filename
          | none => path
        else "Process " ++ toString process_id
      | none => "Process " ++ toString process_id
    else "Process " ++ toString process_id

-- ─────────────────────────────────────────────────
-- Session enumerator: enumerate_sessions (lines 242-382)
-- ─────────────────────────────────────────────────

/-- Accumulator of the enumeration loops: the result vector, the live id
set, and the cache being updated in place. -/
structure EnumAcc where
  sessions : List AudioSession
  live : List String
  cache : List (String × AudioSession)
deriving DecidableEq

/-- The body of the inner session loop (lines 288-346), for session index
i: produces the AudioSession to accumulate, or none when the slot is
skipped (GetSession failure, cast failure, process id 0 or unobtainable,
volume interface unavailable). -/
def enumSession (os : Nat → ProcQuery) (i : Nat) (ls : LiveSession) :
    Option AudioSession :=
  if ls.getOk then
    if ls.cast2Ok then
      let process_id := ls.processIdRes.getD 0
      if process_id = 0 then none
      else
        let session_id :=
          match ls.sessionIdRes with
          | some (some s) => s
          | some none => "session_" ++ toString i
          | none => "session_" ++ toString i
        let display_name :=
          match ls.displayNameRes with
          | some (some s) => s
          | some none => "Process " ++ toString process_id
          | none => "Process " ++ toString process_id
        let process_name := get_process_name os process_id
        if ls.volCastOk then
          some ⟨session_id, display_name, process_id, process_name,
                ls.volumeRes.getD 1, ls.muteRes.getD false⟩
        else none
    else none
  else none

/-- One step of the session loop: accumulate the session, the live id and
the cache insert, or skip. -/
def enumStep (os : Nat → ProcQuery) (acc : EnumAcc) (p : Nat × LiveSession) :
    EnumAcc :=
  match enumSession os p.1 p.2 with
  | none => acc
  | some s =>
    ⟨acc.sessions ++ [s], insertS acc.live s.session_id,
     insertC acc.cache s.session_id s⟩

/-- A device is processed only when Item, Activate, GetSessionEnumerator
and GetCount all succeed; otherwise the loop continues to the next
device. -/
def deviceOk (d : LiveDevice) : Bool :=
  d.itemOk && d.activateOk && d.sessEnumOk && d.countOk

/-- The body of the device loop (lines 264-347). -/
def enumDevice (os : Nat → ProcQuery) (acc : EnumAcc) (d : LiveDevice) :
    EnumAcc :=
  if deviceOk d then d.sessions.enum.foldl (enumStep os) acc else acc

/-- The accumulator after the whole device loop, starting from the cache
of the manager. -/
def enumAccOf (os : Nat → ProcQuery) (w : LiveWorld) (m : AudioManager) :
    EnumAcc :=
  w.devices.foldl (enumDevice os) ⟨[], [], m.sessions⟩

/-- The cache after the retain of line 350: entries whose id is in the
live set. -/
def enumRetained (os : Nat → ProcQuery) (w : LiveWorld) (m : AudioManager) :
    List (String × AudioSession) :=
  (enumAccOf os w m).cache.filter (fun p => decide (p.1 ∈ (enumAccOf os w m).live))

/-- The pruning of lines 353-359: when over the cap, collect the keys,
truncate the key list to half the cap, and retain the entries whose key
survived. -/
def pruneCache (c : List (String × AudioSession)) : List (String × AudioSession) :=
  if MAX_SESSION_CACHE_SIZE < c.length then
    c.filter (fun p => decide (p.1 ∈ (c.map Prod.fst).take (MAX_SESSION_CACHE_SIZE / 2)))
  else c

/-- enumerate_sessions: result list and updated manager.  The three setup
calls are fatal; afterwards the device loop, the retain, the prune, and
the bookkeeping of the log counters. -/
def enumerate_sessions (os : Nat → ProcQuery) (w : LiveWorld) (m : AudioManager) :
    Except String (List AudioSession) × AudioManager :=
  if w.enumeratorOk then
    if w.endpointsOk then
      if w.devCountOk then
        let acc := enumAccOf os w m
        let pruned := pruneCache (enumRetained os w m)
        let calls := (m.enumerate_calls + 1) % USIZE_MOD
        let active := acc.live.length
        let cacheN := pruned.length
        let countsChanged : Bool :=
          match m.last_logged_counts with
          | some (a, c) => (a != active) || (c != cacheN)
          | none => true
        (Except.ok acc.sessions,
         { sessions := pruned
           current_device_id := m.current_device_id
           enumerate_calls := calls
           last_logged_counts :=
             if countsChanged || (calls % LOG_INTERVAL == 0) then some (active, cacheN)
             else m.last_logged_counts })
      else (Except.error "Failed to get device count", m)
    else (Except.error "Failed to enumerate audio endpoints", m)
  else (Except.error "Failed to create device enumerator", m)

-- ─────────────────────────────────────────────────
-- Volume / mute controller: set_session_volume (385-458),
-- set_session_mute (461-532)
-- ─────────────────────────────────────────────────

/-- f32 clamp to the unit interval: below the lower bound gives the lower
bound, above the upper bound gives the upper bound. -/
def clamp01 (v : Rat) : Rat := if v < 0 then 0 else if 1 < v then 1 else v

/-- The condition under which the fan-out loop reaches the inner apply of
one session slot and increments updated_count: GetSession and the two
casts succeed and the process id (0 when unobtainable) matches. -/
def sessAttempt (pid : Nat) (ls : LiveSession) : Bool :=
  ls.getOk && ls.cast2Ok && (ls.processIdRes.getD 0 == pid) && ls.volCastOk

/-- Contribution of one device to updated_count. -/
def countAttemptsDevice (pid : Nat) (d : LiveDevice) : Nat :=
  if deviceOk d then d.sessions.countP (sessAttempt pid) else 0

/-- updated_count over the whole fan-out; GetCount of the device
collection is unwrap_or 0 here, so its failure silently gives zero. -/
def attemptCount (w : LiveWorld) (pid : Nat) : Nat :=
  if w.devCountOk then (w.devices.map (countAttemptsDevice pid)).sum else 0

/-- Effect of the fan-out on one session slot: the volume changes exactly
when the apply is attempted and the discarded SetMasterVolume call would
have succeeded. -/
def applyVolSession (pid : Nat) (v : Rat) (ls : LiveSession) : LiveSession :=
  if sessAttempt pid ls && ls.setOk then { ls with volumeRes := some v } else ls

/-- Effect of the fan-out on one device. -/
def applyVolDevice (pid : Nat) (v : Rat) (d : LiveDevice) : LiveDevice :=
  if deviceOk d then { d with sessions := d.sessions.map (applyVolSession pid v) }
  else d

/-- Effect of the mute fan-out on one session slot. -/
def applyMuteSession (pid : Nat) (mu : Bool) (ls : LiveSession) : LiveSession :=
  if sessAttempt pid ls && ls.setOk then { ls with muteRes := some mu } else ls

/-- Effect of the mute fan-out on one device. -/
def applyMuteDevice (pid : Nat) (mu : Bool) (d : LiveDevice) : LiveDevice :=
  if deviceOk d then { d with sessions := d.sessions.map (applyMuteSession pid mu) }
  else d

/-- set_session_volume: clamp, cache lookup, fan-out over the live world,
cache update of the requested id, success iff updated_count is positive.
Returns the result, the new manager and the new live world. -/
def set_session_volume (w : LiveWorld) (m : AudioManager) (session_id : String)
    (volume : Rat) : Except String Unit × AudioManager × LiveWorld :=
  let volume := clamp01 volume
  match lookupC m.sessions session_id with
  | none => (Except.error ("Session not found: " ++ session_id), m, w)
  | some s =>
    if w.enumeratorOk then
      if w.endpointsOk then
        let pid := s.process_id
        let updated := attemptCount w pid
        let w' :=
          if w.devCountOk then
            { w with devices := w.devices.map (applyVolDevice pid volume) }
          else w
        let cache' := updateC m.sessions session_id (fun t => { t with volume := volume })
        let m' := { m with sessions := cache' }
        if 0 < updated then (Except.ok (), m', w')
        else (Except.error ("No sessions found for process_id: " ++ toString pid), m', w')
      else (Except.error "Failed to enumerate audio endpoints", m, w)
    else (Except.error "Failed to create device enumerator", m, w)

/-- set_session_mute: identical shape, on the mute flag, without clamp. -/
def set_session_mute (w : LiveWorld) (m : AudioManager) (session_id : String)
    (muted : Bool) : Except String Unit × AudioManager × LiveWorld :=
  match lookupC m.sessions session_id with
  | none => (Except.error ("Session not found: " ++ session_id), m, w)
  | some s =>
    if w.enumeratorOk then
      if w.endpointsOk then
        let pid := s.process_id
        let updated := attemptCount w pid
        let w' :=
          if w.devCountOk then
            { w with devices := w.devices.map (applyMuteDevice pid muted) }
          else w
        let cache' := updateC m.sessions session_id (fun t => { t with is_muted := muted })
        let m' := { m with sessions := cache' }
        if 0 < updated then (Except.ok (), m', w')
        else (Except.error ("No sessions found for process_id: " ++ toString pid), m', w')
      else (Except.error "Failed to enumerate audio endpoints", m, w)
    else (Except.error "Failed to create device enumerator", m, w)

-- ─────────────────────────────────────────────────
-- Device resolver: check_device_changed (lines 172-182)
-- ─────────────────────────────────────────────────

/-- check_device_changed: resolved is the answer of get_default_device_id
for this call (an OS interaction, hence a parameter).  A differing id
updates the stored one and yields true; an equal id yields false. -/
def check_device_changed (resolved : Except String String) (m : AudioManager) :
    Except String Bool × AudioManager :=
  match resolved with
  | Except.error e => (Except.error e, m)
  | Except.ok nid =>
    if nid ≠ m.current_device_id then
      (Except.ok true, { m with current_device_id := nid })
    else (Except.ok false, m)

/-- The session slot of a world at device index di, session index si. -/
def sessAt (w : LiveWorld) (di si : Nat) : Option LiveSession :=
  w.devices[di]?.bind (fun d => d.sessions[si]?)

-- ─────────────────────────────────────────────────
-- General lemmas about the cache primitives
-- ─────────────────────────────────────────────────

theorem insertS_mem (l : List String) (x k : String) :
    k ∈ insertS l x ↔ k ∈ l ∨ k = x := by
  unfold insertS
  split
  · constructor
    · exact fun h => Or.inl h
    · rintro (h | rfl) <;> assumption
  · simp [List.mem_append]

theorem insertS_nodup (l : List String) (x : String) (h : l.Nodup) :
    (insertS l x).Nodup := by
  unfold insertS
  split
  · exact h
  · rename_i hx
    simp [List.nodup_append, h, hx]

theorem insertS_length_le (l : List String) (x : String) :
    (insertS l x).length ≤ l.length + 1 := by
  unfold insertS
  split
  · omega
  · simp

theorem insertS_of_not_mem (l : List String) (x : String) (h : x ∉ l) :
    insertS l x = l ++ [x] := by
  unfold insertS
  exact if_neg h

theorem insertC_keys (c : List (String × AudioSession)) (k : String) (v : AudioSession) :
    (insertC c k v).map Prod.fst =
      if k ∈ c.map Prod.fst then c.map Prod.fst else c.map Prod.fst ++ [k] := by
  unfold insertC
  split
  · rw [List.map_map]
    apply List.map_congr_left
    intro p _
    by_cases hp : p.1 = k
    · simp [hp]
    · simp [hp]
  · rw [List.map_append]
    rfl

theorem insertC_keys_mem (c : List (String × AudioSession)) (k v x) :
    x ∈ (insertC c k v).map Prod.fst ↔ x ∈ c.map Prod.fst ∨ x = k := by
  rw [insertC_keys]
  split
  · rename_i hk
    constructor
    · exact fun h => Or.inl h
    · rintro (h | rfl) <;> assumption
  · simp [List.mem_append]

theorem insertC_keys_nodup (c : List (String × AudioSession)) (k v)
    (h : (c.map Prod.fst).Nodup) : ((insertC c k v).map Prod.fst).Nodup := by
  rw [insertC_keys]
  split
  · exact h
  · rename_i hk
    simp [List.nodup_append, h, hk]

theorem insertC_mem_imp (c : List (String × AudioSession)) (k v p)
    (h : p ∈ insertC c k v) : p ∈ c ∨ p = (k, v) := by
  unfold insertC at h
  split at h
  · rcases List.mem_map.mp h with ⟨q, hq, hqe⟩
    by_cases hk : q.1 = k
    · right
      rw [← hqe]
      simp [hk]
    · left
      rw [← hqe]
      simpa [hk] using hq
  · rcases List.mem_append.mp h with h | h
    · exact Or.inl h
    · exact Or.inr (by simpa using h)

theorem insertC_of_not_mem (c : List (String × AudioSession)) (k v)
    (h : k ∉ c.map Prod.fst) : insertC c k v = c ++ [(k, v)] := by
  unfold insertC
  exact if_neg h

theorem lookupC_updateC (c : List (String × AudioSession)) (k : String)
    (f : AudioSession → AudioSession) :
    lookupC (updateC c k f) k = (lookupC c k).map f := by
  induction c with
  | nil => rfl
  | cons p c ih =>
    by_cases hp : p.1 == k
    · simp [updateC, lookupC, List.find?, hp]
    · have h1 : lookupC (updateC (p :: c) k f) k = lookupC (updateC c k f) k := by
        simp [updateC, lookupC, List.find?, hp]
      have h2 : lookupC (p :: c) k = lookupC c k := by
        simp [lookupC, List.find?, hp]
      rw [h1, h2, ih]

theorem updateC_forall (c : List (String × AudioSession)) (k : String)
    (f : AudioSession → AudioSession) (P : AudioSession → Prop)
    (hc : ∀ p ∈ c, P p.2) (hf : ∀ a, P a → P (f a)) :
    ∀ p ∈ updateC c k f, P p.2 := by
  intro p hp
  rcases List.mem_map.mp hp with ⟨q, hq, hqe⟩
  by_cases hk : q.1 == k
  · rw [← hqe]
    simp only [hk, if_pos]
    exact hf _ (hc q hq)
  · rw [← hqe]
    simp only [hk]
    simpa using hc q hq

theorem pruneCache_mem_imp (c : List (String × AudioSession)) (p)
    (h : p ∈ pruneCache c) : p ∈ c := by
  unfold pruneCache at h
  split at h
  · exact (List.mem_filter.mp h).1
  · exact h

theorem pruneCache_eq (c : List (String × AudioSession))
    (h : (c.map Prod.fst).Nodup) :
    pruneCache c =
      if MAX_SESSION_CACHE_SIZE < c.length then c.take (MAX_SESSION_CACHE_SIZE / 2)
      else c := by
  unfold pruneCache
  split
  · have hsplit : c = c.take (MAX_SESSION_CACHE_SIZE / 2) ++ c.drop (MAX_SESSION_CACHE_SIZE / 2) :=
      (List.take_append_drop _ c).symm
    have hkeys : (c.map Prod.fst).take (MAX_SESSION_CACHE_SIZE / 2) =
        (c.take (MAX_SESSION_CACHE_SIZE / 2)).map Prod.fst := by
      rw [List.map_take]
    have hnd : ((c.take (MAX_SESSION_CACHE_SIZE / 2)).map Prod.fst ++
        (c.drop (MAX_SESSION_CACHE_SIZE / 2)).map Prod.fst).Nodup := by
      rw [← List.map_append, ← hsplit]
      exact h
    have hdisj := (List.nodup_append.mp hnd).2.2
    have h1 : (c.take (MAX_SESSION_CACHE_SIZE / 2)).filter
        (fun p => decide (p.1 ∈ (c.map Prod.fst).take (MAX_SESSION_CACHE_SIZE / 2))) =
        c.take (MAX_SESSION_CACHE_SIZE / 2) := by
      apply List.filter_eq_self.mpr
      intro p hp
      rw [hkeys]
      exact decide_eq_true (List.mem_map_of_mem Prod.fst hp)
    have h2 : (c.drop (MAX_SESSION_CACHE_SIZE / 2)).filter
        (fun p => decide (p.1 ∈ (c.map Prod.fst).take (MAX_SESSION_CACHE_SIZE / 2))) = [] := by
      apply List.filter_eq_nil_iff.mpr
      intro p hp
      rw [hkeys]
      simp only [decide_eq_true_eq]
      intro hmem
      exact hdisj hmem (List.mem_map_of_mem Prod.fst hp)
    calc c.filter (fun p => decide (p.1 ∈ (c.map Prod.fst).take (MAX_SESSION_CACHE_SIZE / 2)))
        = (c.take (MAX_SESSION_CACHE_SIZE / 2) ++ c.drop (MAX_SESSION_CACHE_SIZE / 2)).filter
            (fun p => decide (p.1 ∈ (c.map Prod.fst).take (MAX_SESSION_CACHE_SIZE / 2))) := by
          rw [List.take_append_drop]
      _ = c.take (MAX_SESSION_CACHE_SIZE / 2) ++ [] := by rw [List.filter_append, h1, h2]
      _ = c.take (MAX_SESSION_CACHE_SIZE / 2) := List.append_nil _
  · rfl

theorem foldl_preserves {α β : Type} (P : β → Prop) (step : β → α → β)
    (hs : ∀ b x, P b → P (step b x)) :
    ∀ (l : List α) (a : β), P a → P (l.foldl step a) := by
  intro l
  induction l with
  | nil => exact fun a h => h
  | cons x xs ih => exact fun a h => ih (step a x) (hs a x h)

-- ─────────────────────────────────────────────────
-- Invariants of the enumeration accumulator
-- ─────────────────────────────────────────────────

/-- A session accumulated by the inner loop never has process id 0. -/
theorem enumSession_pid_ne (os : Nat → ProcQuery) (i : Nat) (ls : LiveSession)
    (s : AudioSession) (h : enumSession os i ls = some s) : s.process_id ≠ 0 := by
  unfold enumSession at h
  repeat' split at h
  all_goals simp_all
  all_goals
    obtain ⟨h1, h2⟩ := h
    subst h2
    simpa using h1

/-- Structural invariant of the accumulator: the live set and the ids of
the result list have the same members, every live id is a cache key, the
cache keys are distinct, and there are at most as many live ids as
accumulated sessions. -/
def AccInv (a : EnumAcc) : Prop :=
  (∀ k, k ∈ a.live ↔ k ∈ a.sessions.map AudioSession.session_id) ∧
  (∀ k ∈ a.live, k ∈ a.cache.map Prod.fst) ∧
  ((a.cache.map Prod.fst).Nodup) ∧
  a.live.length ≤ a.sessions.length

theorem enumStep_inv (os : Nat → ProcQuery) (a : EnumAcc) (p : Nat × LiveSession)
    (h : AccInv a) : AccInv (enumStep os a p) := by
  unfold enumStep
  cases hE : enumSession os p.1 p.2 with
  | none => exact h
  | some s =>
    obtain ⟨h1, h2, h3, h4⟩ := h
    refine ⟨?_, ?_, ?_, ?_⟩
    · intro k
      show k ∈ insertS a.live s.session_id ↔ _
      rw [insertS_mem]
      simp [List.map_append, h1 k]
    · intro k hk
      rw [show (⟨a.sessions ++ [s], insertS a.live s.session_id,
            insertC a.cache s.session_id s⟩ : EnumAcc).live =
          insertS a.live s.session_id from rfl, insertS_mem] at hk
      rcases hk with hk | rfl
      · exact (insertC_keys_mem _ _ _ _).mpr (Or.inl (h2 k hk))
      · exact (insertC_keys_mem _ _ _ _).mpr (Or.inr rfl)
    · exact insertC_keys_nodup _ _ _ h3
    · show (insertS a.live s.session_id).length ≤ (a.sessions ++ [s]).length
      calc (insertS a.live s.session_id).length ≤ a.live.length + 1 :=
            insertS_length_le _ _
        _ ≤ a.sessions.length + 1 := by omega
        _ = (a.sessions ++ [s]).length := by simp

theorem enumDevice_inv (os : Nat → ProcQuery) (a : EnumAcc) (d : LiveDevice)
    (h : AccInv a) : AccInv (enumDevice os a d) := by
  unfold enumDevice
  split
  · exact foldl_preserves AccInv (enumStep os) (fun b x hb => enumStep_inv os b x hb) _ a h
  · exact h

theorem enumAccOf_inv (os : Nat → ProcQuery) (w : LiveWorld) (m : AudioManager)
    (hnodup : (m.sessions.map Prod.fst).Nodup) : AccInv (enumAccOf os w m) := by
  unfold enumAccOf
  apply foldl_preserves AccInv (enumDevice os) (fun b x hb => enumDevice_inv os b x hb)
  exact ⟨by simp, by simp, hnodup, by simp⟩

/-- Process id invariant of the accumulator, for the exclusion of system
sessions. -/
def PidInv (a : EnumAcc) : Prop :=
  (∀ s ∈ a.sessions, s.process_id ≠ 0) ∧ (∀ p ∈ a.cache, p.2.process_id ≠ 0)

theorem enumStep_pid (os : Nat → ProcQuery) (a : EnumAcc) (p : Nat × LiveSession)
    (h : PidInv a) : PidInv (enumStep os a p) := by
  unfold enumStep
  cases hE : enumSession os p.1 p.2 with
  | none => exact h
  | some s =>
    obtain ⟨h1, h2⟩ := h
    constructor
    · intro t ht
      rcases List.mem_append.mp ht with ht | ht
      · exact h1 t ht
      · rw [List.mem_singleton.mp ht]
        exact enumSession_pid_ne os p.1 p.2 s hE
    · intro q hq
      rcases insertC_mem_imp _ _ _ _ hq with hq | rfl
      · exact h2 q hq
      · exact enumSession_pid_ne os p.1 p.2 s hE

theorem enumDevice_pid (os : Nat → ProcQuery) (a : EnumAcc) (d : LiveDevice)
    (h : PidInv a) : PidInv (enumDevice os a d) := by
  unfold enumDevice
  split
  · exact foldl_preserves PidInv (enumStep os) (fun b x hb => enumStep_pid os b x hb) _ a h
  · exact h

theorem enumAccOf_pid (os : Nat → ProcQuery) (w : LiveWorld) (m : AudioManager)
    (hm : ∀ p ∈ m.sessions, p.2.process_id ≠ 0) : PidInv (enumAccOf os w m) := by
  unfold enumAccOf
  apply foldl_preserves PidInv (enumDevice os) (fun b x hb => enumDevice_pid os b x hb)
  exact ⟨by simp, hm⟩

-- ─────────────────────────────────────────────────
-- Unfolding lemmas
-- ─────────────────────────────────────────────────

theorem enumerate_setup (os : Nat → ProcQuery) (w : LiveWorld) (m : AudioManager)
    (hen : w.enumeratorOk = true) (hep : w.endpointsOk = true)
    (hdc : w.devCountOk = true) :
    (enumerate_sessions os w m).1 = Except.ok (enumAccOf os w m).sessions ∧
    (enumerate_sessions os w m).2.sessions = pruneCache (enumRetained os w m) := by
  unfold enumerate_sessions
  simp [hen, hep, hdc]

theorem enumerate_ok_flags (os : Nat → ProcQuery) (w : LiveWorld) (m : AudioManager)
    (ss : List AudioSession) (h : (enumerate_sessions os w m).1 = Except.ok ss) :
    w.enumeratorOk = true ∧ w.endpointsOk = true ∧ w.devCountOk = true ∧
    ss = (enumAccOf os w m).sessions := by
  by_cases h1 : w.enumeratorOk <;> by_cases h2 : w.endpointsOk <;>
    by_cases h3 : w.devCountOk <;> simp_all [enumerate_sessions]

theorem enumRetained_key_mem (os : Nat → ProcQuery) (w : LiveWorld) (m : AudioManager)
    (k : String) :
    k ∈ (enumRetained os w m).map Prod.fst ↔
      k ∈ (enumAccOf os w m).cache.map Prod.fst ∧ k ∈ (enumAccOf os w m).live := by
  unfold enumRetained
  constructor
  · intro hk
    rcases List.mem_map.mp hk with ⟨p, hp, rfl⟩
    have hf := List.mem_filter.mp hp
    exact ⟨List.mem_map_of_mem _ hf.1, of_decide_eq_true hf.2⟩
  · rintro ⟨hc, hl⟩
    rcases List.mem_map.mp hc with ⟨p, hp, rfl⟩
    exact List.mem_map_of_mem _ (List.mem_filter.mpr ⟨hp, decide_eq_true hl⟩)

theorem enumRetained_keys_nodup (os : Nat → ProcQuery) (w : LiveWorld)
    (m : AudioManager) (hnodup : (m.sessions.map Prod.fst).Nodup) :
    ((enumRetained os w m).map Prod.fst).Nodup := by
  have hinv := enumAccOf_inv os w m hnodup
  have hsub : List.Sublist ((enumRetained os w m).map Prod.fst)
      ((enumAccOf os w m).cache.map Prod.fst) := by
    unfold enumRetained
    exact List.Sublist.map Prod.fst (List.filter_sublist _)
  exact List.Nodup.sublist hsub hinv.2.2.1

theorem enumRetained_length_le (os : Nat → ProcQuery) (w : LiveWorld)
    (m : AudioManager) (hnodup : (m.sessions.map Prod.fst).Nodup) :
    (enumRetained os w m).length ≤ (enumAccOf os w m).sessions.length := by
  have hinv := enumAccOf_inv os w m hnodup
  have hnd := enumRetained_keys_nodup os w m hnodup
  have hsubset : ((enumRetained os w m).map Prod.fst).toFinset ⊆
      (enumAccOf os w m).live.toFinset := by
    intro k hk
    rw [List.mem_toFinset] at *
    exact ((enumRetained_key_mem os w m k).mp hk).2
  calc (enumRetained os w m).length = ((enumRetained os w m).map Prod.fst).length := by
        rw [List.length_map]
    _ = ((enumRetained os w m).map Prod.fst).toFinset.card :=
        (List.toFinset_card_of_nodup hnd).symm
    _ ≤ (enumAccOf os w m).live.toFinset.card := Finset.card_le_card hsubset
    _ ≤ (enumAccOf os w m).live.length := List.toFinset_card_le _
    _ ≤ (enumAccOf os w m).sessions.length := hinv.2.2.2

theorem set_session_volume_snd (w : LiveWorld) (m : AudioManager) (sid : String)
    (v : Rat) (s : AudioSession) (hs : lookupC m.sessions sid = some s)
    (hen : w.enumeratorOk = true) (hep : w.endpointsOk = true) :
    (set_session_volume w m sid v).2 =
      ({ m with sessions := updateC m.sessions sid (fun t => { t with volume := clamp01 v }) },
       if w.devCountOk then
         { w with devices := w.devices.map (applyVolDevice s.process_id (clamp01 v)) }
       else w) := by
  unfold set_session_volume
  rw [hs]
  simp only [hen, hep, if_true]
  split <;> rfl

theorem set_session_volume_fst_pos (w : LiveWorld) (m : AudioManager) (sid : String)
    (v : Rat) (s : AudioSession) (hs : lookupC m.sessions sid = some s)
    (hen : w.enumeratorOk = true) (hep : w.endpointsOk = true)
    (hc : 0 < attemptCount w s.process_id) :
    (set_session_volume w m sid v).1 = Except.ok () := by
  unfold set_session_volume
  rw [hs]
  simp [hen, hep, hc]

theorem set_session_volume_fst_zero (w : LiveWorld) (m : AudioManager) (sid : String)
    (v : Rat) (s : AudioSession) (hs : lookupC m.sessions sid = some s)
    (hen : w.enumeratorOk = true) (hep : w.endpointsOk = true)
    (hc : attemptCount w s.process_id = 0) :
    (set_session_volume w m sid v).1 =
      Except.error ("No sessions found for process_id: " ++ toString s.process_id) := by
  unfold set_session_volume
  rw [hs]
  simp [hen, hep, hc]

theorem set_session_mute_snd (w : LiveWorld) (m : AudioManager) (sid : String)
    (mu : Bool) (s : AudioSession) (hs : lookupC m.sessions sid = some s)
    (hen : w.enumeratorOk = true) (hep : w.endpointsOk = true) :
    (set_session_mute w m sid mu).2 =
      ({ m with sessions := updateC m.sessions sid (fun t => { t with is_muted := mu }) },
       if w.devCountOk then
         { w with devices := w.devices.map (applyMuteDevice s.process_id mu) }
       else w) := by
  unfold set_session_mute
  rw [hs]
  simp only [hen, hep, if_true]
  split <;> rfl

theorem set_session_mute_fst_pos (w : LiveWorld) (m : AudioManager) (sid : String)
    (mu : Bool) (s : AudioSession) (hs : lookupC m.sessions sid = some s)
    (hen : w.enumeratorOk = true) (hep : w.endpointsOk = true)
    (hc : 0 < attemptCount w s.process_id) :
    (set_session_mute w m sid mu).1 = Except.ok () := by
  unfold set_session_mute
  rw [hs]
  simp [hen, hep, hc]

theorem set_session_mute_fst_zero (w : LiveWorld) (m : AudioManager) (sid : String)
    (mu : Bool) (s : AudioSession) (hs : lookupC m.sessions sid = some s)
    (hen : w.enumeratorOk = true) (hep : w.endpointsOk = true)
    (hc : attemptCount w s.process_id = 0) :
    (set_session_mute w m sid mu).1 =
      Except.error ("No sessions found for process_id: " ++ toString s.process_id) := by
  unfold set_session_mute
  rw [hs]
  simp [hen, hep, hc]

theorem set_session_volume_not_found (w : LiveWorld) (m : AudioManager)
    (sid : String) (v : Rat) (hl : lookupC m.sessions sid = none) :
    set_session_volume w m sid v =
      (Except.error ("Session not found: " ++ sid), m, w) := by
  unfold set_session_volume
  rw [hl]

theorem set_session_mute_not_found (w : LiveWorld) (m : AudioManager)
    (sid : String) (mu : Bool) (hl : lookupC m.sessions sid = none) :
    set_session_mute w m sid mu =
      (Except.error ("Session not found: " ++ sid), m, w) := by
  unfold set_session_mute
  rw [hl]

-- ─────────────────────────────────────────────────
-- A concrete overfull pass: 1001 devices, one healthy session each,
-- pairwise distinct session ids, empty initial cache
-- ─────────────────────────────────────────────────

/-- An OS in which no process can be opened (names all fall back). -/
def osNone : Nat → ProcQuery := fun _ => ⟨false, none⟩

/-- The j-th session id: j letters a (injective in j). -/
def mkId (i : Nat) : String := String.mk (List.replicate i 'a')

/-- The j-th live session: every call succeeds, process id 7. -/
def mkLive (j : Nat) : LiveSession :=
  ⟨true, true, some 7, some (some (mkId j)), some (some "App"), true,
   some 1, some false, true⟩

/-- The record the enumeration builds for the j-th live session. -/
def mkSess (j : Nat) : AudioSession := ⟨mkId j, "App", 7, "Process 7", 1, false⟩

/-- The j-th device, carrying exactly the j-th session. -/
def mkDev (j : Nat) : LiveDevice := ⟨true, true, true, true, [mkLive j]⟩

/-- The list of 1001 healthy devices. -/
def bigDevs : List LiveDevice := (List.range 1001).map mkDev

/-- A world of 1001 healthy devices. -/
def bigW : LiveWorld := ⟨true, true, true, bigDevs⟩

/-- A manager with an empty cache. -/
def bigM : AudioManager := ⟨[], "dev", 0, none⟩

theorem mkId_inj : Function.Injective mkId := by
  intro i j h
  have h2 := congrArg (fun s => s.data.length) h
  simpa [mkId] using h2

theorem gpn_osNone_7 : get_process_name osNone 7 = "Process 7" := by decide

theorem enumSession_mkLive (i j : Nat) :
    enumSession osNone i (mkLive j) = some (mkSess j) := by
  simp [enumSession, mkLive, mkSess, gpn_osNone_7]

theorem enumStep_mkLive (acc : EnumAcc) (i j : Nat) :
    enumStep osNone acc (i, mkLive j) =
      ⟨acc.sessions ++ [mkSess j], insertS acc.live (mkId j),
       insertC acc.cache (mkId j) (mkSess j)⟩ := by
  unfold enumStep
  rw [enumSession_mkLive]
  rfl

theorem enumDevice_mkDev (acc : EnumAcc) (j : Nat) :
    enumDevice osNone acc (mkDev j) =
      ⟨acc.sessions ++ [mkSess j], insertS acc.live (mkId j),
       insertC acc.cache (mkId j) (mkSess j)⟩ := by
  have h : enumDevice osNone acc (mkDev j) = enumStep osNone acc (0, mkLive j) := rfl
  rw [h, enumStep_mkLive]

theorem mkId_fresh (n : Nat) : mkId n ∉ (List.range n).map mkId := by
  intro hmem
  rcases List.mem_map.mp hmem with ⟨j, hj, hje⟩
  have hjn := mkId_inj hje
  rw [hjn] at hj
  exact absurd (List.mem_range.mp hj) (lt_irrefl n)

theorem bigFold (n : Nat) :
    ((List.range n).map mkDev).foldl (enumDevice osNone) ⟨[], [], []⟩ =
      ⟨(List.range n).map mkSess, (List.range n).map mkId,
       (List.range n).map (fun j => (mkId j, mkSess j))⟩ := by
  induction n with
  | zero => rfl
  | succ n ih =>
    rw [List.range_succ, List.map_append, List.foldl_append, ih]
    have hstep := enumDevice_mkDev
      ⟨(List.range n).map mkSess, (List.range n).map mkId,
       (List.range n).map (fun j => (mkId j, mkSess j))⟩ n
    have hS : insertS ((List.range n).map mkId) (mkId n) =
        (List.range n).map mkId ++ [mkId n] :=
      insertS_of_not_mem _ _ (mkId_fresh n)
    have hkeys : ((List.range n).map (fun j => (mkId j, mkSess j))).map Prod.fst =
        (List.range n).map mkId := by
      rw [List.map_map]
      rfl
    have hC : insertC ((List.range n).map (fun j => (mkId j, mkSess j))) (mkId n) (mkSess n) =
        (List.range n).map (fun j => (mkId j, mkSess j)) ++ [(mkId n, mkSess n)] := by
      apply insertC_of_not_mem
      rw [hkeys]
      exact mkId_fresh n
    simp only [List.map_cons, List.map_nil, List.foldl_cons, List.foldl_nil, hstep, hS, hC]
    simp [List.map_append]

theorem enumAccOf_def (os : Nat → ProcQuery) (w : LiveWorld) (m : AudioManager) :
    enumAccOf os w m = w.devices.foldl (enumDevice os) ⟨[], [], m.sessions⟩ := rfl

theorem bigAcc : enumAccOf osNone bigW bigM =
    ⟨(List.range 1001).map mkSess, (List.range 1001).map mkId,
     (List.range 1001).map (fun j => (mkId j, mkSess j))⟩ := by
  rw [enumAccOf_def]
  have h1 : bigW.devices = bigDevs := rfl
  have h2 : bigM.sessions = ([] : List (String × AudioSession)) := rfl
  have h3 : bigDevs = (List.range 1001).map mkDev := rfl
  rw [h1, h2, h3, bigFold]

theorem bigRetained : enumRetained osNone bigW bigM =
    (List.range 1001).map (fun j => (mkId j, mkSess j)) := by
  unfold enumRetained
  rw [bigAcc]
  apply List.filter_eq_self.mpr
  intro p hp
  rcases List.mem_map.mp hp with ⟨j, hj, rfl⟩
  exact decide_eq_true (List.mem_map_of_mem mkId hj)

theorem bigRetained_keys : (enumRetained osNone bigW bigM).map Prod.fst =
    (List.range 1001).map mkId := by
  rw [bigRetained, List.map_map]
  rfl

theorem bigRetained_len : (enumRetained osNone bigW bigM).length = 1001 := by
  rw [bigRetained, List.length_map, List.length_range]

theorem bigPruned : (enumerate_sessions osNone bigW bigM).2.sessions =
    (List.range 500).map (fun j => (mkId j, mkSess j)) := by
  have hsetup := enumerate_setup osNone bigW bigM rfl rfl rfl
  rw [hsetup.2, pruneCache_eq]
  · rw [if_pos (by rw [bigRetained_len]; decide), bigRetained]
    have hM : MAX_SESSION_CACHE_SIZE / 2 = 500 := rfl
    rw [hM, ← List.map_take, List.take_range]
    rfl
  · rw [bigRetained_keys]
    exact (List.nodup_range 1001).map mkId_inj

-- ─────────────────────────────────────────────────
-- Concrete small worlds for witnesses and counterexamples
-- ─────────────────────────────────────────────────

/-- A healthy session record with process id 7. -/
def sessA : AudioSession := ⟨"sidA", "App", 7, "Process 7", 1, false⟩

/-- A healthy live session slot with process id 7 and id sidA. -/
def lsA : LiveSession :=
  ⟨true, true, some 7, some (some "sidA"), some (some "App"), true,
   some 1, some false, true⟩

/-- A fully accessible device carrying lsA. -/
def devA : LiveDevice := ⟨true, true, true, true, [lsA]⟩

/-- A healthy world with one device. -/
def wA : LiveWorld := ⟨true, true, true, [devA]⟩

/-- A manager whose cache holds sessA under sidA. -/
def mA : AudioManager := ⟨[("sidA", sessA)], "dev", 1, some (1, 1)⟩

/-- A healthy world with no devices at all. -/
def wZ : LiveWorld := ⟨true, true, true, []⟩

-- ─────────────────────────────────────────────────
-- C5
-- ─────────────────────────────────────────────────

/-- C5: when set_session_volume or set_session_mute is called with a
session id absent from the cache, the call fails with the session not
found error and both the cache and the live world are left unchanged. -/
theorem C5_unknown_session_fails_unchanged (w : LiveWorld) (m : AudioManager)
    (sid : String) (v : Rat) (mu : Bool) (hl : lookupC m.sessions sid = none) :
    set_session_volume w m sid v =
      (Except.error ("Session not found: " ++ sid), m, w) ∧
    set_session_mute w m sid mu =
      (Except.error ("Session not found: " ++ sid), m, w) :=
  ⟨set_session_volume_not_found w m sid v hl,
   set_session_mute_not_found w m sid mu hl⟩

/-- C5 witness: a concrete cache without the key nope. -/
theorem C5_witness :
    lookupC mA.sessions "nope" = none ∧
    set_session_volume wA mA "nope" 1 =
      (Except.error ("Session not found: " ++ "nope"), mA, wA) ∧
    set_session_mute wA mA "nope" true =
      (Except.error ("Session not found: " ++ "nope"), mA, wA) := by
  have h := C5_unknown_session_fails_unchanged wA mA "nope" 1 true (by decide)
  exact ⟨by decide, h.1, h.2⟩

-- ─────────────────────────────────────────────────
-- C7
-- ─────────────────────────────────────────────────

/-- C7: when the requested session id is cached but the fan-out makes zero
update attempts, set_session_volume still overwrites the cached volume
(clamped) and set_session_mute still overwrites the cached mute flag, and
both return the no sessions found error: the error path mutates the
cache. -/
theorem C7_error_path_mutates_cache (w : LiveWorld) (m : AudioManager)
    (sid : String) (v : Rat) (mu : Bool) (s : AudioSession)
    (hs : lookupC m.sessions sid = some s)
    (hen : w.enumeratorOk = true) (hep : w.endpointsOk = true)
    (hz : attemptCount w s.process_id = 0) :
    (set_session_volume w m sid v).1 =
      Except.error ("No sessions found for process_id: " ++ toString s.process_id) ∧
    lookupC (set_session_volume w m sid v).2.1.sessions sid =
      some { s with volume := clamp01 v } ∧
    (set_session_mute w m sid mu).1 =
      Except.error ("No sessions found for process_id: " ++ toString s.process_id) ∧
    lookupC (set_session_mute w m sid mu).2.1.sessions sid =
      some { s with is_muted := mu } := by
  have hv := set_session_volume_snd w m sid v s hs hen hep
  have hmu := set_session_mute_snd w m sid mu s hs hen hep
  refine ⟨set_session_volume_fst_zero w m sid v s hs hen hep hz, ?_,
         set_session_mute_fst_zero w m sid mu s hs hen hep hz, ?_⟩
  · have h21 : (set_session_volume w m sid v).2.1.sessions =
        updateC m.sessions sid (fun t => { t with volume := clamp01 v }) := by
      rw [hv]
    rw [h21, lookupC_updateC, hs]
    rfl
  · have h21 : (set_session_mute w m sid mu).2.1.sessions =
        updateC m.sessions sid (fun t => { t with is_muted := mu }) := by
      rw [hmu]
    rw [h21, lookupC_updateC, hs]
    rfl

/-- C7 witness: a cached session with no live match (no devices). -/
theorem C7_witness :
    lookupC mA.sessions "sidA" = some sessA ∧
    attemptCount wZ sessA.process_id = 0 ∧
    (set_session_volume wZ mA "sidA" (mkRat 1 2)).1 =
      Except.error ("No sessions found for process_id: " ++ toString sessA.process_id) ∧
    lookupC (set_session_volume wZ mA "sidA" (mkRat 1 2)).2.1.sessions "sidA" =
      some { sessA with volume := clamp01 (mkRat 1 2) } := by
  have h := C7_error_path_mutates_cache wZ mA "sidA" (mkRat 1 2) true sessA
    (by decide) rfl rfl (by decide)
  exact ⟨by decide, by decide, h.1, h.2.1⟩

-- ─────────────────────────────────────────────────
-- C8
-- ─────────────────────────────────────────────────

/-- C8: check_device_changed returns true and replaces the stored device
id exactly when the freshly resolved id differs from the stored one, and
returns false leaving the state unchanged otherwise; hence a second call
resolving the same id always returns false, so after a single switch it
returns true exactly once. -/
theorem C8_device_change_detection (m : AudioManager) (n : String) :
    (n ≠ m.current_device_id →
      check_device_changed (Except.ok n) m =
        (Except.ok true, { m with current_device_id := n })) ∧
    (n = m.current_device_id →
      check_device_changed (Except.ok n) m = (Except.ok false, m)) ∧
    (check_device_changed (Except.ok n) (check_device_changed (Except.ok n) m).2 =
      (Except.ok false, (check_device_changed (Except.ok n) m).2)) := by
  refine ⟨?_, ?_, ?_⟩
  · intro h
    simp [check_device_changed, h]
  · intro h
    simp [check_device_changed, h]
  · by_cases h : n = m.current_device_id
    · simp [check_device_changed, h]
    · simp [check_device_changed, h]

/-- C8 witness: a switch to dev2 reports true once, then false. -/
theorem C8_witness :
    "dev2" ≠ mA.current_device_id ∧
    check_device_changed (Except.ok "dev2") mA =
      (Except.ok true, { mA with current_device_id := "dev2" }) ∧
    check_device_changed (Except.ok "dev2")
        (check_device_changed (Except.ok "dev2") mA).2 =
      (Except.ok false, (check_device_changed (Except.ok "dev2") mA).2) := by
  have h := C8_device_change_detection mA "dev2"
  exact ⟨by decide, h.1 (by decide), h.2.2⟩

-- ─────────────────────────────────────────────────
-- C9
-- ─────────────────────────────────────────────────

/-- An OS whose queried executable path ends in a backslash. -/
def osTrail : Nat → ProcQuery := fun _ => ⟨true, some "a\\"⟩

/-- An OS reporting a normal executable path. -/
def osExe : Nat → ProcQuery := fun _ => ⟨true, some "C:\\x.exe"⟩

/-- C9 counterexample: for pid 5 the process opens and the query succeeds
with the path a backslash, whose final backslash separated segment is
empty, so the resolver returns the empty string, refuting the claim that
every non zero pid yields a non empty string. -/
theorem C9_counterexample :
    (5 : Nat) ≠ 0 ∧
    (osTrail 5).openOk = true ∧
    (osTrail 5).queryRes = some "a\\" ∧
    get_process_name osTrail 5 = "" := by decide

/-- C9 (amended): the resolver is total: pid 0 yields System; when the
process cannot be opened, or the path query fails, or it reports an empty
path, the resolver yields the fallback Process pid; when the query
succeeds with a non empty path it yields the final backslash separated
segment of that path, which is empty exactly when the path ends in a
backslash. -/
theorem C9_resolver_total (os : Nat → ProcQuery) (pid : Nat) :
    (pid = 0 → get_process_name os pid = "System") ∧
    (pid ≠ 0 → (os pid).openOk = false →
      get_process_name os pid = "Process " ++ toString pid) ∧
    (pid ≠ 0 → (os pid).openOk = true → (os pid).queryRes = none →
      get_process_name os pid = "Process " ++ toString pid) ∧
    (∀ p, pid ≠ 0 → (os pid).openOk = true → (os pid).queryRes = some p →
      0 < p.length →
      get_process_name os pid = ((splitChar '\\' p).getLast?).getD p) ∧
    (∀ p, pid ≠ 0 → (os pid).openOk = true → (os pid).queryRes = some p →
      p.length = 0 →
      get_process_name os pid = "Process " ++ toString pid) := by
  refine ⟨?_, ?_, ?_, ?_, ?_⟩
  · intro h
    simp [get_process_name, h]
  · intro h1 h2
    simp [get_process_name, h1, h2]
  · intro h1 h2 h3
    simp [get_process_name, h1, h2, h3]
  · intro p h1 h2 h3 h4
    simp only [get_process_name, h1, h2, h3, h4, if_pos, if_true, if_neg]
    cases hL : (splitChar '\\' p).getLast? <;> simp [h1, h4, hL]
  · intro p h1 h2 h3 h4
    simp [get_process_name, h1, h2, h3, h4]

/-- C9 witness: a normal path resolves to its filename. -/
theorem C9_witness :
    (5 : Nat) ≠ 0 ∧
    (osExe 5).queryRes = some "C:\\x.exe" ∧
    get_process_name osExe 5 = "x.exe" := by
  refine ⟨by decide, by decide, ?_⟩
  have h := (C9_resolver_total osExe 5).2.2.2.1 "C:\\x.exe" (by decide) rfl rfl
    (by decide)
  rw [h]
  decide

-- ─────────────────────────────────────────────────
-- C6
-- ─────────────────────────────────────────────────

/-- A world in which the device enumerator is created but the endpoint
collection enumeration fails. -/
def wEndpFail : LiveWorld := ⟨true, false, true, [devA]⟩

/-- C6 counterexample: with the base device enumerator created
successfully, a failure of EnumAudioEndpoints is still fatal to the call,
refuting the claim that only enumerator creation failure is fatal. -/
theorem C6_counterexample :
    wEndpFail.enumeratorOk = true ∧
    (enumerate_sessions osNone wEndpFail bigM).1 =
      Except.error "Failed to enumerate audio endpoints" := by decide

/-- C6 (amended): the three setup calls (device enumerator creation,
endpoint collection enumeration, device count query) are the only fatal
failures: when they succeed the call returns Ok with the accumulated
sessions regardless of per device or per session failures; a device any
of whose four queries fails contributes nothing, exactly as if absent;
and a session slot whose GetSession, control cast or volume cast fails is
skipped. -/
theorem C6_failure_policy (os : Nat → ProcQuery) (m : AudioManager)
    (ds1 ds2 : List LiveDevice) (d : LiveDevice) (w : LiveWorld) (i : Nat)
    (ls : LiveSession) :
    (w.enumeratorOk = true → w.endpointsOk = true → w.devCountOk = true →
      (enumerate_sessions os w m).1 = Except.ok (enumAccOf os w m).sessions) ∧
    (deviceOk d = false →
      enumerate_sessions os ⟨true, true, true, ds1 ++ d :: ds2⟩ m =
        enumerate_sessions os ⟨true, true, true, ds1 ++ ds2⟩ m) ∧
    (ls.getOk = false ∨ ls.cast2Ok = false ∨ ls.volCastOk = false →
      enumSession os i ls = none) := by
  refine ⟨?_, ?_, ?_⟩
  · intro hen hep hdc
    exact (enumerate_setup os w m hen hep hdc).1
  · intro hbad
    have hskip : ∀ acc, enumDevice os acc d = acc := by
      intro acc
      unfold enumDevice
      rw [hbad]
      rfl
    have hacc : enumAccOf os ⟨true, true, true, ds1 ++ d :: ds2⟩ m =
        enumAccOf os ⟨true, true, true, ds1 ++ ds2⟩ m := by
      rw [enumAccOf_def, enumAccOf_def]
      show (ds1 ++ d :: ds2).foldl (enumDevice os) ⟨[], [], m.sessions⟩ =
        (ds1 ++ ds2).foldl (enumDevice os) ⟨[], [], m.sessions⟩
      rw [List.foldl_append, List.foldl_append, List.foldl_cons, hskip]
    have hret : enumRetained os ⟨true, true, true, ds1 ++ d :: ds2⟩ m =
        enumRetained os ⟨true, true, true, ds1 ++ ds2⟩ m := by
      unfold enumRetained
      rw [hacc]
    unfold enumerate_sessions
    rw [hacc, hret]
  · intro h
    rcases h with h | h | h
    · unfold enumSession
      rw [h]
      rfl
    · unfold enumSession
      rw [h]
      simp
    · unfold enumSession
      simp [h]

/-- A device whose activation fails, carrying a healthy session. -/
def devBad : LiveDevice := ⟨true, false, true, true, [lsA]⟩

/-- C6 witness: a pass over one healthy and one failing device equals the
pass over the healthy device alone, and a healthy pass returns Ok. -/
theorem C6_witness :
    deviceOk devBad = false ∧
    enumerate_sessions osNone ⟨true, true, true, [devA] ++ devBad :: []⟩ bigM =
      enumerate_sessions osNone ⟨true, true, true, [devA] ++ []⟩ bigM ∧
    (enumerate_sessions osNone wA bigM).1 =
      Except.ok (enumAccOf osNone wA bigM).sessions := by
  have h := C6_failure_policy osNone bigM [devA] [] devBad wA 0 lsA
  exact ⟨by decide, h.2.1 (by decide), h.1 rfl rfl rfl⟩

-- ─────────────────────────────────────────────────
-- C4
-- ─────────────────────────────────────────────────

/-- A session record with process id 9. -/
def sessC : AudioSession := ⟨"sidC", "App", 9, "Process 9", 1, false⟩

/-- A reachable matching live session whose set call would fail. -/
def lsC : LiveSession :=
  ⟨true, true, some 9, some (some "sidC"), some (some "App"), true,
   some 1, some false, false⟩

/-- A healthy world carrying only lsC. -/
def wC : LiveWorld := ⟨true, true, true, [⟨true, true, true, true, [lsC]⟩]⟩

/-- A manager caching sessC under sidC. -/
def mC : AudioManager := ⟨[("sidC", sessC)], "dev", 1, some (1, 1)⟩

/-- C4 counterexample: the only matching live session is reached but its
set call fails (the source discards that result), so zero sessions are
updated, the live world is left entirely unchanged, and yet the call
returns Ok, refuting success iff at least one session was updated. -/
theorem C4_counterexample :
    (set_session_volume wC mC "sidC" (mkRat 3 10)).1 = Except.ok () ∧
    (set_session_volume wC mC "sidC" (mkRat 3 10)).2.2 = wC ∧
    sessAt wC 0 0 = some lsC ∧
    lsC.volumeRes = some 1 ∧
    clamp01 (mkRat 3 10) ≠ 1 := by decide

/-- C4 (amended): with the session id cached and the two setup calls
succeeding, the call succeeds iff at least one update attempt was made,
that is, iff at least one live session matched the process id and
furnished a volume interface; the result of the set call itself is
discarded, and with zero attempts the call fails with the no sessions
found error. -/
theorem C4_success_iff_attempt (w : LiveWorld) (m : AudioManager) (sid : String)
    (v : Rat) (mu : Bool) (s : AudioSession)
    (hs : lookupC m.sessions sid = some s)
    (hen : w.enumeratorOk = true) (hep : w.endpointsOk = true) :
    ((set_session_volume w m sid v).1 = Except.ok () ↔
      0 < attemptCount w s.process_id) ∧
    ((set_session_volume w m sid v).1 =
        Except.error ("No sessions found for process_id: " ++ toString s.process_id) ↔
      attemptCount w s.process_id = 0) ∧
    ((set_session_mute w m sid mu).1 = Except.ok () ↔
      0 < attemptCount w s.process_id) ∧
    ((set_session_mute w m sid mu).1 =
        Except.error ("No sessions found for process_id: " ++ toString s.process_id) ↔
      attemptCount w s.process_id = 0) := by
  have hcase : attemptCount w s.process_id = 0 ∨ 0 < attemptCount w s.process_id := by
    omega
  refine ⟨⟨?_, set_session_volume_fst_pos w m sid v s hs hen hep⟩,
         ⟨?_, set_session_volume_fst_zero w m sid v s hs hen hep⟩,
         ⟨?_, set_session_mute_fst_pos w m sid mu s hs hen hep⟩,
         ⟨?_, set_session_mute_fst_zero w m sid mu s hs hen hep⟩⟩
  · intro h
    rcases hcase with h0 | hp
    · rw [set_session_volume_fst_zero w m sid v s hs hen hep h0] at h
      exact Except.noConfusion h
    · exact hp
  · intro h
    rcases hcase with h0 | hp
    · exact h0
    · rw [set_session_volume_fst_pos w m sid v s hs hen hep hp] at h
      exact Except.noConfusion h
  · intro h
    rcases hcase with h0 | hp
    · rw [set_session_mute_fst_zero w m sid mu s hs hen hep h0] at h
      exact Except.noConfusion h
    · exact hp
  · intro h
    rcases hcase with h0 | hp
    · exact h0
    · rw [set_session_mute_fst_pos w m sid mu s hs hen hep hp] at h
      exact Except.noConfusion h

/-- C4 witness: one matching healthy session means one attempt and
success. -/
theorem C4_witness :
    lookupC mA.sessions "sidA" = some sessA ∧
    attemptCount wA sessA.process_id = 1 ∧
    (set_session_volume wA mA "sidA" 1).1 = Except.ok () := by
  have h := (C4_success_iff_attempt wA mA "sidA" 1 true sessA (by decide) rfl rfl).1
  exact ⟨by decide, by decide, h.mpr (by decide)⟩

-- ─────────────────────────────────────────────────
-- C1
-- ─────────────────────────────────────────────────

/-- A matching live session with volume nine tenths whose set call would
fail. -/
def lsB : LiveSession :=
  ⟨true, true, some 7, some (some "sidA"), some (some "App"), true,
   some (mkRat 9 10), some false, false⟩

/-- A healthy world carrying only lsB on one fully accessible device. -/
def wB : LiveWorld := ⟨true, true, true, [⟨true, true, true, true, [lsB]⟩]⟩

/-- C1 counterexample: sidA is cached with process id 7, the only device
is fully accessible and its session matches process id 7, yet after
set_session_volume the live session still holds volume nine tenths, not
the clamped new value: the new value is not applied to every matching
live session (here, because the discarded set call fails). -/
theorem C1_counterexample :
    lookupC mA.sessions "sidA" = some sessA ∧
    sessA.process_id = 7 ∧
    deviceOk ⟨true, true, true, true, [lsB]⟩ = true ∧
    lsB.processIdRes = some 7 ∧
    sessAt (set_session_volume wB mA "sidA" (mkRat 1 2)).2.2 0 0 = some lsB ∧
    lsB.volumeRes = some (mkRat 9 10) ∧
    some (clamp01 (mkRat 1 2)) ≠ some (mkRat 9 10) := by decide

/-- C1 (amended): with the session id cached and the three setup calls
succeeding, every live session that the fan-out reaches (its device passes
all four device queries; GetSession, the control cast and the volume cast
succeed; the process id matches the cached one) and whose set call
succeeds holds the new value afterwards (clamped for volume), and the
cache entry of the requested session id is updated to the new value. -/
theorem C1_fanout_applies (w : LiveWorld) (m : AudioManager) (sid : String)
    (v : Rat) (mu : Bool) (s : AudioSession) (di si : Nat) (d : LiveDevice)
    (ls : LiveSession)
    (hs : lookupC m.sessions sid = some s)
    (hen : w.enumeratorOk = true) (hep : w.endpointsOk = true)
    (hdc : w.devCountOk = true)
    (hd : w.devices[di]? = some d) (hdok : deviceOk d = true)
    (hls : d.sessions[si]? = some ls)
    (hatt : sessAttempt s.process_id ls = true) (hset : ls.setOk = true) :
    sessAt (set_session_volume w m sid v).2.2 di si =
      some { ls with volumeRes := some (clamp01 v) } ∧
    lookupC (set_session_volume w m sid v).2.1.sessions sid =
      some { s with volume := clamp01 v } ∧
    sessAt (set_session_mute w m sid mu).2.2 di si =
      some { ls with muteRes := some mu } ∧
    lookupC (set_session_mute w m sid mu).2.1.sessions sid =
      some { s with is_muted := mu } := by
  have hv := set_session_volume_snd w m sid v s hs hen hep
  have hmu := set_session_mute_snd w m sid mu s hs hen hep
  refine ⟨?_, ?_, ?_, ?_⟩
  · have h22 : (set_session_volume w m sid v).2.2 =
        { w with devices := w.devices.map (applyVolDevice s.process_id (clamp01 v)) } := by
      rw [hv]
      simp [hdc]
    rw [h22]
    unfold sessAt
    show ((w.devices.map (applyVolDevice s.process_id (clamp01 v)))[di]?).bind
      (fun d => d.sessions[si]?) = _
    rw [List.getElem?_map, hd]
    show ((applyVolDevice s.process_id (clamp01 v) d).sessions)[si]? = _
    unfold applyVolDevice
    rw [if_pos hdok]
    show (d.sessions.map (applyVolSession s.process_id (clamp01 v)))[si]? = _
    rw [List.getElem?_map, hls]
    show some (applyVolSession s.process_id (clamp01 v) ls) = _
    unfold applyVolSession
    rw [hatt, hset]
    rfl
  · have h21 : (set_session_volume w m sid v).2.1.sessions =
        updateC m.sessions sid (fun t => { t with volume := clamp01 v }) := by
      rw [hv]
    rw [h21, lookupC_updateC, hs]
    rfl
  · have h22 : (set_session_mute w m sid mu).2.2 =
        { w with devices := w.devices.map (applyMuteDevice s.process_id mu) } := by
      rw [hmu]
      simp [hdc]
    rw [h22]
    unfold sessAt
    show ((w.devices.map (applyMuteDevice s.process_id mu))[di]?).bind
      (fun d => d.sessions[si]?) = _
    rw [List.getElem?_map, hd]
    show ((applyMuteDevice s.process_id mu d).sessions)[si]? = _
    unfold applyMuteDevice
    rw [if_pos hdok]
    show (d.sessions.map (applyMuteSession s.process_id mu))[si]? = _
    rw [List.getElem?_map, hls]
    show some (applyMuteSession s.process_id mu ls) = _
    unfold applyMuteSession
    rw [hatt, hset]
    rfl
  · have h21 : (set_session_mute w m sid mu).2.1.sessions =
        updateC m.sessions sid (fun t => { t with is_muted := mu }) := by
      rw [hmu]
    rw [h21, lookupC_updateC, hs]
    rfl

/-- C1 witness: in the healthy one device world the matching session
receives the clamped volume and the cache entry is updated. -/
theorem C1_witness :
    lookupC mA.sessions "sidA" = some sessA ∧
    sessAttempt sessA.process_id lsA = true ∧
    lsA.setOk = true ∧
    sessAt (set_session_volume wA mA "sidA" (mkRat 1 2)).2.2 0 0 =
      some { lsA with volumeRes := some (clamp01 (mkRat 1 2)) } ∧
    lookupC (set_session_volume wA mA "sidA" (mkRat 1 2)).2.1.sessions "sidA" =
      some { sessA with volume := clamp01 (mkRat 1 2) } := by
  have h := C1_fanout_applies wA mA "sidA" (mkRat 1 2) true sessA 0 0 devA lsA
    (by decide) rfl rfl rfl (by decide) (by decide) (by decide) (by decide) (by decide)
  exact ⟨by decide, by decide, by decide, h.1, h.2.1⟩

-- ─────────────────────────────────────────────────
-- C2
-- ─────────────────────────────────────────────────

/-- C2 counterexample: a successful pass observing 1001 distinct session
ids inserts them all, but the pruning step then evicts some of them, so
the cache id set is a strict subset of the observed id set: the last
observed id is absent from the cache after the call. -/
theorem C2_counterexample :
    (enumerate_sessions osNone bigW bigM).1 =
      Except.ok ((List.range 1001).map mkSess) ∧
    mkId 1000 ∈ ((List.range 1001).map mkSess).map AudioSession.session_id ∧
    mkId 1000 ∉ (enumerate_sessions osNone bigW bigM).2.sessions.map Prod.fst := by
  refine ⟨?_, ?_, ?_⟩
  · rw [(enumerate_setup osNone bigW bigM rfl rfl rfl).1, bigAcc]
  · rw [List.map_map]
    exact List.mem_map.mpr ⟨1000, List.mem_range.mpr (by norm_num), rfl⟩
  · rw [bigPruned, List.map_map]
    intro hmem
    rcases List.mem_map.mp hmem with ⟨j, hj, hje⟩
    have hje2 : mkId j = mkId 1000 := hje
    have hj2 : j = 1000 := mkId_inj hje2
    have hj3 := List.mem_range.mp hj
    omega

/-- C2 (amended): after every successful enumeration, every cached
session id was observed in that pass (insertion plus eviction, then
pruning can only remove entries), and whenever at most 1000 sessions were
observed the cached id set is exactly the observed id set. -/
theorem C2_cache_tracks_observed (os : Nat → ProcQuery) (w : LiveWorld)
    (m : AudioManager) (ss : List AudioSession)
    (hnodup : (m.sessions.map Prod.fst).Nodup)
    (h : (enumerate_sessions os w m).1 = Except.ok ss) :
    (∀ k ∈ (enumerate_sessions os w m).2.sessions.map Prod.fst,
      k ∈ ss.map AudioSession.session_id) ∧
    (ss.length ≤ MAX_SESSION_CACHE_SIZE →
      ∀ k, k ∈ (enumerate_sessions os w m).2.sessions.map Prod.fst ↔
        k ∈ ss.map AudioSession.session_id) := by
  obtain ⟨hen, hep, hdc, hss⟩ := enumerate_ok_flags os w m ss h
  have hsetup := enumerate_setup os w m hen hep hdc
  have hinv := enumAccOf_inv os w m hnodup
  subst hss
  constructor
  · intro k hk
    rw [hsetup.2] at hk
    rcases List.mem_map.mp hk with ⟨p, hp, rfl⟩
    have hpR := pruneCache_mem_imp _ p hp
    have hmem : p.1 ∈ (enumRetained os w m).map Prod.fst :=
      List.mem_map_of_mem _ hpR
    have hlive := ((enumRetained_key_mem os w m p.1).mp hmem).2
    exact (hinv.1 p.1).mp hlive
  · intro hlen k
    rw [hsetup.2]
    have hle : (enumRetained os w m).length ≤ MAX_SESSION_CACHE_SIZE :=
      le_trans (enumRetained_length_le os w m hnodup) hlen
    rw [pruneCache_eq _ (enumRetained_keys_nodup os w m hnodup), if_neg (by omega)]
    rw [enumRetained_key_mem]
    constructor
    · rintro ⟨hck, hlive⟩
      exact (hinv.1 k).mp hlive
    · intro hobs
      have hlive := (hinv.1 k).mpr hobs
      exact ⟨hinv.2.1 k hlive, hlive⟩

/-- C2 witness: a one session pass, below the cap, where the cached id
set equals the observed id set. -/
theorem C2_witness :
    (enumerate_sessions osNone wA bigM).1 = Except.ok [sessA] ∧
    [sessA].length ≤ MAX_SESSION_CACHE_SIZE ∧
    ("sidA" ∈ (enumerate_sessions osNone wA bigM).2.sessions.map Prod.fst ↔
      "sidA" ∈ [sessA].map AudioSession.session_id) := by
  have h1 : (enumerate_sessions osNone wA bigM).1 = Except.ok [sessA] := by decide
  refine ⟨h1, by decide, ?_⟩
  exact (C2_cache_tracks_observed osNone wA bigM [sessA] (by decide) h1).2
    (by decide) "sidA"

-- ─────────────────────────────────────────────────
-- C3
-- ─────────────────────────────────────────────────

/-- C3 counterexample: a pass leaving 1001 entries triggers pruning; the
retained cache lists the keys in insertion order, and pruning keeps the
500 first inserted (oldest) entries and drops the newest ones: the oldest
key is still cached and the newest key is gone, refuting the claim that
the oldest half (by insertion order) is dropped. -/
theorem C3_counterexample :
    MAX_SESSION_CACHE_SIZE < (enumRetained osNone bigW bigM).length ∧
    (enumRetained osNone bigW bigM).map Prod.fst = (List.range 1001).map mkId ∧
    mkId 0 ∈ (enumerate_sessions osNone bigW bigM).2.sessions.map Prod.fst ∧
    mkId 1000 ∉ (enumerate_sessions osNone bigW bigM).2.sessions.map Prod.fst ∧
    (enumerate_sessions osNone bigW bigM).2.sessions.length = 500 := by
  refine ⟨?_, bigRetained_keys, ?_, ?_, ?_⟩
  · rw [bigRetained_len]
    decide
  · rw [bigPruned, List.map_map]
    exact List.mem_map.mpr ⟨0, List.mem_range.mpr (by norm_num), rfl⟩
  · rw [bigPruned, List.map_map]
    intro hmem
    rcases List.mem_map.mp hmem with ⟨j, hj, hje⟩
    have hje2 : mkId j = mkId 1000 := hje
    have hj2 : j = 1000 := mkId_inj hje2
    have hj3 := List.mem_range.mp hj
    omega
  · rw [bigPruned, List.length_map, List.length_range]

/-- C3 (amended): after every successful enumeration the cache holds at
most the cap of 1000 entries; when the retained cache exceeds the cap,
pruning keeps exactly the first half cap entries in map iteration order
(in this model the 500 oldest by insertion) and drops the rest. -/
theorem C3_cache_bounded (os : Nat → ProcQuery) (w : LiveWorld) (m : AudioManager)
    (ss : List AudioSession)
    (hnodup : (m.sessions.map Prod.fst).Nodup)
    (h : (enumerate_sessions os w m).1 = Except.ok ss) :
    (enumerate_sessions os w m).2.sessions.length ≤ MAX_SESSION_CACHE_SIZE ∧
    (MAX_SESSION_CACHE_SIZE < (enumRetained os w m).length →
      (enumerate_sessions os w m).2.sessions =
        (enumRetained os w m).take (MAX_SESSION_CACHE_SIZE / 2)) := by
  obtain ⟨hen, hep, hdc, hss⟩ := enumerate_ok_flags os w m ss h
  have hsetup := enumerate_setup os w m hen hep hdc
  have hnd := enumRetained_keys_nodup os w m hnodup
  have hpr := pruneCache_eq _ hnd
  constructor
  · rw [hsetup.2, hpr]
    split
    · rw [List.length_take]
      exact le_trans (min_le_left _ _) (Nat.div_le_self _ _)
    · rename_i hle
      omega
  · intro hgt
    rw [hsetup.2, hpr, if_pos hgt]

/-- C3 witness: a one session pass stays within the cap. -/
theorem C3_witness :
    (enumerate_sessions osNone wA bigM).1 = Except.ok [sessA] ∧
    (enumerate_sessions osNone wA bigM).2.sessions.length ≤ MAX_SESSION_CACHE_SIZE := by
  have h1 : (enumerate_sessions osNone wA bigM).1 = Except.ok [sessA] := by decide
  exact ⟨h1, (C3_cache_bounded osNone wA bigM [sessA] (by decide) h1).1⟩

-- ─────────────────────────────────────────────────
-- C10
-- ─────────────────────────────────────────────────

/-- C10: every session returned by a successful enumeration and every
entry of the cache afterwards has a non zero process id (system sessions
and sessions whose process id cannot be obtained are skipped), and the
volume and mute setters preserve this cache invariant. -/
theorem C10_no_system_sessions (os : Nat → ProcQuery) (w : LiveWorld)
    (m : AudioManager) (ss : List AudioSession)
    (h : (enumerate_sessions os w m).1 = Except.ok ss)
    (hm : ∀ p ∈ m.sessions, p.2.process_id ≠ 0) :
    (∀ s ∈ ss, s.process_id ≠ 0) ∧
    (∀ p ∈ (enumerate_sessions os w m).2.sessions, p.2.process_id ≠ 0) ∧
    (∀ sid v p, p ∈ (set_session_volume w m sid v).2.1.sessions →
      p.2.process_id ≠ 0) ∧
    (∀ sid mu p, p ∈ (set_session_mute w m sid mu).2.1.sessions →
      p.2.process_id ≠ 0) := by
  obtain ⟨hen, hep, hdc, hss⟩ := enumerate_ok_flags os w m ss h
  have hsetup := enumerate_setup os w m hen hep hdc
  have hpid := enumAccOf_pid os w m hm
  subst hss
  refine ⟨hpid.1, ?_, ?_, ?_⟩
  · intro p hp
    rw [hsetup.2] at hp
    have hpR := pruneCache_mem_imp _ p hp
    have hpc : p ∈ (enumAccOf os w m).cache := by
      unfold enumRetained at hpR
      exact (List.mem_filter.mp hpR).1
    exact hpid.2 p hpc
  · intro sid v p hp
    cases hl : lookupC m.sessions sid with
    | none =>
      rw [set_session_volume_not_found w m sid v hl] at hp
      exact hm p hp
    | some s =>
      have hv := set_session_volume_snd w m sid v s hl hen hep
      have h21 : (set_session_volume w m sid v).2.1.sessions =
          updateC m.sessions sid (fun t => { t with volume := clamp01 v }) := by
        rw [hv]
      rw [h21] at hp
      exact updateC_forall m.sessions sid (fun t => { t with volume := clamp01 v })
        (fun a => a.process_id ≠ 0) hm (fun a ha => ha) p hp
  · intro sid mu p hp
    cases hl : lookupC m.sessions sid with
    | none =>
      rw [set_session_mute_not_found w m sid mu hl] at hp
      exact hm p hp
    | some s =>
      have hmu := set_session_mute_snd w m sid mu s hl hen hep
      have h21 : (set_session_mute w m sid mu).2.1.sessions =
          updateC m.sessions sid (fun t => { t with is_muted := mu }) := by
        rw [hmu]
      rw [h21] at hp
      exact updateC_forall m.sessions sid (fun t => { t with is_muted := mu })
        (fun a => a.process_id ≠ 0) hm (fun a ha => ha) p hp

/-- C10 witness: the one session pass returns sessA, whose process id is
not 0. -/
theorem C10_witness :
    (enumerate_sessions osNone wA bigM).1 = Except.ok [sessA] ∧
    sessA.process_id ≠ 0 := by
  have h1 : (enumerate_sessions osNone wA bigM).1 = Except.ok [sessA] := by decide
  exact ⟨h1, (C10_no_system_sessions osNone wA bigM [sessA] h1 (by decide)).1 sessA
    (List.mem_singleton.mpr rfl)⟩
